import Mathlib

/-!
Shallow embedding of the WebSocket channel handler
(src/handlers/websocket/websocket.go) of the courier repository.

The handler logic (registerUser, receiveMessage, sendMsgPart, SendMsg) is
translated directly from the Go source.  Backend operations (contact store,
message persistence, dedup store, status writes) and library helpers that live
outside src/ are modelled from the spec; each such definition carries a doc
comment starting with `Modelled from the spec:`.
-/

namespace Websocket

/-- A delivery / acknowledgement status value, mirroring courier's
MsgStatusValue constants used by this handler. -/
inductive MsgStatusValue where
  | errored
  | wired
  | queued
  | sent
  | delivered
deriving DecidableEq, Repr

/-- Checks whether `p` is a prefix of `s` (on character lists). -/
def startsWithList : List Char → List Char → Bool
  | _, [] => true
  | [], _ :: _ => false
  | c :: cs, p :: ps => c = p && startsWithList cs ps

/-- Removes the first occurrence of the non-empty pattern `pat` from the
character list, mirroring Go's strings.Replace(s, pat, "", 1). -/
def removeFirstOccAux (pat : List Char) : List Char → List Char
  | [] => []
  | c :: cs =>
    if startsWithList (c :: cs) pat then (c :: cs).drop pat.length
    else c :: removeFirstOccAux pat cs

/-- Go's strings.Replace(s, pat, "", 1) for a non-empty pattern `pat`:
removes the first occurrence of `pat` from `s`, wherever it occurs. -/
def removeFirstOcc (s pat : String) : String :=
  ⟨removeFirstOccAux pat.data s.data⟩

/-- The spec's reading of address normalization: the address with a leading
"+" stripped (and only a leading one).  Used to compare the spec's wording
against the source's strings.Replace-based derivation. -/
def stripLeadingPlus (s : String) : String :=
  match s.data with
  | '+' :: cs => ⟨cs⟩
  | _ => s

/-- A canonical outgoing message as seen by SendMsg: the fields of courier's
Msg interface that the handler reads. -/
structure OutMsg where
  id : String
  text : String
  urnPath : String
  quickReplies : List String
  attachments : List String
deriving DecidableEq, Repr

/-- The provider JSON send payload built by SendMsg (struct dataPayload). -/
structure DataPayload where
  ID : String
  Text : String
  To : String
  ToNoPlus : String
  From : String
  FromNoPlus : String
  Channel : String
  Metadata : Option (List (String × List String))
  Attachments : Option (List String)
deriving DecidableEq, Repr

/-- A channel log entry as produced by sendMsgPart: NewChannelLogFromRR with
WithError records the transport error, if any. -/
structure ChannelLog where
  title : String
  sendError : Option String
deriving DecidableEq, Repr

/-- Result of one sendMsgPart call: (external id, channel log, returned error). -/
structure PartResult where
  externalID : String
  log : ChannelLog
  err : Option String
deriving DecidableEq, Repr

/-- sendMsgPart, translated from the source.  json.Marshal of dataPayload
(whose fields are strings, a string map and a string slice) cannot fail in Go,
so the marshal-failure branch is unreachable and the function always reaches
the HTTP call.  `transportErr` is the outcome of utils.MakeHTTPRequest
(none = transport success).  Note the source returns a nil error
unconditionally after the HTTP call: the transport error is recorded only in
the channel log. -/
def sendMsgPart (transportErr : Option String) : PartResult :=
  { externalID := ""
    log := { title := "Message Sent", sendError := transportErr }
    err := none }

/-- The observable outcome of SendMsg: the payload it built, how many HTTP
POSTs it issued, the status object it returns, the logs attached to that
status, and the error value returned to the caller. -/
structure SendOutcome where
  payload : DataPayload
  postsIssued : Nat
  status : MsgStatusValue
  statusExternalID : Option String
  logs : List ChannelLog
  returnedError : Option String
deriving DecidableEq, Repr

/-- SendMsg, translated from the source.  `address` is msg.Channel().Address()
and `transportErr` the outcome of the (at most one) HTTP POST. -/
def SendMsg (msg : OutMsg) (address : String) (transportErr : Option String) :
    SendOutcome :=
  let data : DataPayload :=
    { ID := msg.id
      Text := msg.text
      To := msg.urnPath
      ToNoPlus := removeFirstOcc msg.urnPath "+"
      From := address
      FromNoPlus := removeFirstOcc address "+"
      Channel := removeFirstOcc address "+"
      Metadata := none
      Attachments := none }
  let data :=
    if msg.quickReplies.length > 0 then
      { data with Metadata := some [("quick_replies", msg.quickReplies)] }
    else data
  let data :=
    if msg.attachments.length > 0 then
      { data with Attachments := some msg.attachments }
    else data
  -- status := NewMsgStatusForID(..., MsgErrored); hasError := true
  if msg.text ≠ "" then
    let part := sendMsgPart transportErr
    let hasError := part.err.isSome
    { payload := data
      postsIssued := 1
      status := if hasError then .errored else .wired
      statusExternalID := some part.externalID
      logs := [part.log]
      returnedError := none }
  else
    { payload := data
      postsIssued := 0
      status := .errored
      statusExternalID := none
      logs := []
      returnedError := none }

/-! ## Inbound side: backend model and payloads -/

/-- A canonical incoming message under construction, mirroring the builder
chain NewIncomingMsg / WithExternalID / WithReceivedOn / WithContactName /
WithAttachment.  `alreadySeen` is the dedup mark set by the backend's
CheckExternalIDSeen. -/
structure IncomingMsg where
  urn : String
  text : String
  externalID : String
  receivedOn : Int
  contactName : String
  attachments : List String
  alreadySeen : Bool
deriving DecidableEq, Repr

/-- NewIncomingMsg(channel, urn, text): a fresh incoming message. -/
def NewIncomingMsg (urn text : String) : IncomingMsg :=
  { urn := urn, text := text, externalID := "", receivedOn := 0
    contactName := "", attachments := [], alreadySeen := false }

def IncomingMsg.withExternalID (m : IncomingMsg) (id : String) : IncomingMsg :=
  { m with externalID := id }

def IncomingMsg.withReceivedOn (m : IncomingMsg) (t : Int) : IncomingMsg :=
  { m with receivedOn := t }

def IncomingMsg.withContactName (m : IncomingMsg) (n : String) : IncomingMsg :=
  { m with contactName := n }

def IncomingMsg.withAttachment (m : IncomingMsg) (a : String) : IncomingMsg :=
  { m with attachments := m.attachments ++ [a] }

/-- A status event built with NewMsgStatusForExternalID. -/
structure StatusEvent where
  externalID : String
  status : MsgStatusValue
deriving DecidableEq, Repr

/-- Modelled from the spec: the host backend's cross-request state that this
handler reads and writes through the backend interface — the set of external
ids already seen (dedup store), the persisted incoming messages, the external
ids of known outbound messages (acknowledgement matching), and the recorded
status updates.  `persistFailIDs` and `statusFailIDs` are failure oracles:
external ids for which WriteMsg / WriteMsgStatus fail with an error other
than not-found. -/
structure BackendState where
  seenIDs : List String
  writtenMsgs : List IncomingMsg
  knownOutIDs : List String
  statusWrites : List StatusEvent
  persistFailIDs : List String
  statusFailIDs : List String
deriving DecidableEq, Repr

/-- Modelled from the spec: CheckExternalIDSeen performs the deduplication
check against previously seen external_ids, marking the message as already
seen when its external id was recorded before. -/
def CheckExternalIDSeen (st : BackendState) (m : IncomingMsg) : IncomingMsg :=
  { m with alreadySeen := st.seenIDs.contains m.externalID }

/-- Modelled from the spec: WriteMsg persists the incoming message; a message
marked as already seen is not persisted again (idempotent re-delivery
protection) and succeeds trivially; otherwise persistence fails exactly for
the external ids in the failure oracle. -/
def WriteMsg (st : BackendState) (m : IncomingMsg) :
    Except String BackendState :=
  if m.alreadySeen then .ok st
  else if st.persistFailIDs.contains m.externalID then
    .error "persistence failure"
  else .ok { st with writtenMsgs := st.writtenMsgs ++ [m] }

/-- Modelled from the spec: WriteExternalIDSeen records the message's
external id as seen. -/
def WriteExternalIDSeen (st : BackendState) (m : IncomingMsg) : BackendState :=
  { st with seenIDs := st.seenIDs ++ [m.externalID] }

/-- Modelled from the spec: outcome of WriteMsgStatus. -/
inductive StatusWriteResult where
  | ok (st : BackendState)
  | notFound
  | otherError (e : String)
deriving Repr

/-- Modelled from the spec: WriteMsgStatus updates the delivery status of the
outbound message matching the event's external id; an unknown external id
yields the distinguished ErrMsgNotFound, other failures follow the failure
oracle. -/
def WriteMsgStatus (st : BackendState) (ev : StatusEvent) : StatusWriteResult :=
  if st.knownOutIDs.contains ev.externalID then
    if st.statusFailIDs.contains ev.externalID then
      .otherError "status write failure"
    else .ok { st with statusWrites := st.statusWrites ++ [ev] }
  else .notFound

/-- Modelled from the spec: whatsapp URN construction validates the raw
identifier; it fails on an empty or non-numeric phone number. -/
def NewWhatsAppURN (phone : String) : Option String :=
  if phone ≠ "" ∧ phone.data.all Char.isDigit then
    some ("whatsapp:" ++ phone)
  else none

/-- Removes leading and trailing whitespace (Go's strings.TrimSpace on the
joined name). -/
def trimSpaces (s : String) : String :=
  ⟨((s.data.dropWhile (fun c => c.isWhitespace)).reverse.dropWhile
      (fun c => c.isWhitespace)).reverse⟩

/-- Modelled from the spec: display name derived from available sender-name
fields; called here as NameFromFirstLastUsername(senderName, "", ""), which
yields the sender name when present and the (empty) username otherwise. -/
def NameFromFirstLastUsername (first last username : String) : String :=
  let name := trimSpaces (first ++ " " ++ last)
  if name = "" then username else name

/-- One entry of the inbound messages batch (payload.Messages[i]). -/
structure MoMessage where
  fromMe : Bool
  time : Int
  author : String
  senderName : String
  body : String
  caption : String
  type : String
  id : String
deriving DecidableEq, Repr

/-- One entry of the acknowledgement batch (payload.Ack[i]). -/
structure MoAck where
  id : String
  status : String
deriving DecidableEq, Repr

/-- The inbound webhook payload (struct moPayload). -/
structure MoPayload where
  instanceID : String
  messages : List MoMessage
  ack : List MoAck
deriving DecidableEq, Repr

/-- An event returned by receiveMessage: either an incoming message or a
status update. -/
inductive Event where
  | msg (m : IncomingMsg)
  | status (s : StatusEvent)
deriving DecidableEq, Repr

/-- An item of the structured response data list. -/
inductive DataItem where
  | msgReceiveData (m : IncomingMsg)
  | statusData (s : StatusEvent)
  | infoData (note : String)
  | registeredContactData (uuid : String)
deriving DecidableEq, Repr

/-- How a handler invocation ends: a request error written via
WriteAndLogRequestError, an ignored request written via
WriteAndLogRequestIgnored, a raw error returned without writing a response,
a Go panic, or a 200 success response with events and data. -/
inductive HandlerResult where
  | requestError (e : String)
  | ignoredReq (reason : String)
  | rawError (e : String)
  | panicked (e : String)
  | success (events : List Event) (data : List DataItem)
deriving DecidableEq, Repr

/-- The event construction of receiveMessage for one non-self message entry
(source lines 102-130): timestamp, name, text/caption selection, builder
chain, dedup check, attachment. -/
def buildIncomingEvent (st : BackendState) (m : MoMessage) (urn : String) :
    IncomingMsg :=
  let name := NameFromFirstLastUsername m.senderName "" ""
  let text := if m.type = "image" then m.caption else m.body
  let isAttachment := m.type = "image"
  let ev := (((NewIncomingMsg urn text).withExternalID m.id).withReceivedOn
    m.time).withContactName name
  let event := CheckExternalIDSeen st ev
  if isAttachment then event.withAttachment m.body else event

/-- Intermediate result of a batch-processing loop: the backend state so far
together with either the accumulated events and data or the aborting error. -/
inductive StepResult where
  | ok (st : BackendState) (events : List Event) (data : List DataItem)
  | fail (st : BackendState) (r : HandlerResult)
deriving DecidableEq, Repr

/-- Outcome of the loop body of the messages loop on one entry. -/
inductive EntryResult where
  | skip
  | fail (r : HandlerResult)
  | ok (st : BackendState) (ev : IncomingMsg)
deriving DecidableEq, Repr

/-- The loop body of the messages loop of receiveMessage (source lines
98-142) on one entry: entries with fromMe are skipped; otherwise the author
suffix "\x40c.us" is stripped, the URN built (request error on failure), the
event constructed and dedup-checked, persisted (raw error aborts), and the
external id recorded as seen. -/
def processOneMsg (st : BackendState) (m : MoMessage) : EntryResult :=
  if m.fromMe = false then
    let contactPhoneNumber := removeFirstOcc m.author "@c.us"
    match NewWhatsAppURN contactPhoneNumber with
    | none => .fail (.requestError "invalid whatsapp urn")
    | some urn =>
      let event := buildIncomingEvent st m urn
      match WriteMsg st event with
      | .error e => .fail (.rawError e)
      | .ok st1 => .ok (WriteExternalIDSeen st1 event) event
  else .skip

/-- The messages loop of receiveMessage: each entry is processed by
processOneMsg; a skipped entry contributes nothing, a failure aborts the loop
with the state reached so far, a processed entry appends its event and
response datum. -/
def processMsgs (st : BackendState) :
    List MoMessage → List Event → List DataItem → StepResult
  | [], events, data => .ok st events data
  | m :: rest, events, data =>
    match processOneMsg st m with
    | .skip => processMsgs st rest events data
    | .fail r => .fail st r
    | .ok st2 event =>
      processMsgs st2 rest (events ++ [.msg event])
        (data ++ [.msgReceiveData event])

/-- The acknowledgements loop of receiveMessage (source lines 144-170):
the provider status string maps to sent/delivered/queued, the status write is
attempted, ErrMsgNotFound adds an informational note and continues, any other
error aborts, success records the event and its data. -/
def processAcks (st : BackendState) :
    List MoAck → List Event → List DataItem → StepResult
  | [], events, data => .ok st events data
  | a :: rest, events, data =>
    let status : MsgStatusValue :=
      if a.status = "sent" then .sent
      else if a.status = "delivered" then .delivered
      else .queued
    let event : StatusEvent := { externalID := a.id, status := status }
    match WriteMsgStatus st event with
    | .notFound =>
      processAcks st rest events (data ++ [.infoData "message not found, ignored"])
    | .otherError e => .fail st (.rawError e)
    | .ok st1 =>
      processAcks st1 rest (events ++ [.status event])
        (data ++ [.statusData event])

/-- receiveMessage, translated from the source: an empty instance id is
ignored; otherwise the message batch and then the acknowledgement batch are
processed, aborting on the first failure, and on success a 200 response with
the accumulated data is written. -/
def receiveMessage (st : BackendState) (payload : MoPayload) :
    BackendState × HandlerResult :=
  if payload.instanceID = "" then
    (st, .ignoredReq "Ignoring request, no message")
  else
    match processMsgs st payload.messages [] [] with
    | .fail st1 r => (st1, r)
    | .ok st1 events data =>
      match processAcks st1 payload.ack events data with
      | .fail st2 r => (st2, r)
      | .ok st2 events1 data1 => (st2, .success events1 data1)

/-! ## Registration endpoint -/

/-- The registration payload (struct userPayload). -/
structure UserPayload where
  urn : String
  language : String
deriving DecidableEq, Repr

/-- Modelled from the spec: the backend collaborators of registerUser —
whether the contact lookup and the language attachment fail, and the uuid of
the looked-up contact. -/
structure RegEnv where
  getContactFails : Bool
  addLanguageFails : Bool
  contactUUID : String
deriving DecidableEq, Repr

/-- Counts of the backend contact calls registerUser made, so that claims
about "no backend contact call" are statable. -/
structure RegCalls where
  getContactCalls : Nat
  addLanguageCalls : Nat
deriving DecidableEq, Repr

/-- Modelled from the spec: urns.NewURNFromParts builds a canonical identity
from a scheme and a raw identifier, failing on an empty identifier. -/
def NewURNFromParts (scheme path : String) : Option String :=
  if scheme ≠ "" ∧ path ≠ "" then some (scheme ++ ":" ++ path) else none

/-- Modelled from the spec: BCP 47 language-tag parsing as performed by
golang.org/x/text/language.  A tag is well-formed when its primary subtag
(the characters before the first "-") consists of 2 to 8 ASCII letters; the
parse returns that base subtag.  The empty string and tags such as "!!" are
not well-formed. -/
def parseLanguageTag (tag : String) : Option String :=
  let base := tag.data.takeWhile (· ≠ '-')
  if 2 ≤ base.length ∧ base.length ≤ 8 ∧ base.all (fun c => c.isAlpha) then
    some ⟨base⟩
  else none

/-- registerUser, translated from the source: an empty urn is ignored before
any backend call; then the URN is built (request error on failure), the
contact looked up (request error on failure), the language tag parsed with
language.MustParse — which PANICS on a tag that is not well-formed — and the
base language attached to the contact (request error on failure); on success
a 200 response carries the contact uuid.  The channel scheme is an opaque
constant. -/
def registerUser (env : RegEnv) (p : UserPayload) : RegCalls × HandlerResult :=
  if p.urn = "" then
    ({ getContactCalls := 0, addLanguageCalls := 0 },
      .ignoredReq "Ignoring request, no identifier")
  else
    match NewURNFromParts "ext" p.urn with
    | none =>
      ({ getContactCalls := 0, addLanguageCalls := 0 },
        .requestError "invalid urn")
    | some _ =>
      if env.getContactFails then
        ({ getContactCalls := 1, addLanguageCalls := 0 },
          .requestError "contact lookup failure")
      else
        match parseLanguageTag p.language with
        | none =>
          ({ getContactCalls := 1, addLanguageCalls := 0 },
            .panicked "language: tag is not well-formed")
        | some _ =>
          if env.addLanguageFails then
            ({ getContactCalls := 1, addLanguageCalls := 1 },
              .requestError "add language failure")
          else
            ({ getContactCalls := 1, addLanguageCalls := 1 },
              .success [] [.registeredContactData env.contactUUID])

/-! ## Helper lemmas -/

/-- The payload built by SendMsg does not depend on the quick-reply /
attachment conditionals for its address fields. -/
theorem SendMsg_payload_fields (msg : OutMsg) (address : String)
    (t : Option String) :
    (SendMsg msg address t).payload.ToNoPlus = removeFirstOcc msg.urnPath "+" ∧
    (SendMsg msg address t).payload.FromNoPlus = removeFirstOcc address "+" ∧
    (SendMsg msg address t).payload.Channel = removeFirstOcc address "+" := by
  unfold SendMsg
  dsimp only
  split <;> split <;> split <;> simp

/-- Removing the first "+" from a string that starts with "+" strips exactly
the leading "+". -/
theorem removeFirstOcc_plus_of_head (s : String) (h : s.data.head? = some '+') :
    removeFirstOcc s "+" = stripLeadingPlus s := by
  obtain ⟨cs, hcs⟩ : ∃ cs, s.data = '+' :: cs := by
    cases hd : s.data with
    | nil => simp [hd] at h
    | cons c cs =>
      simp [hd] at h
      exact ⟨cs, by simp [h]⟩
  have : s = ⟨'+' :: cs⟩ := by cases s; simp_all
  subst this
  simp [removeFirstOcc, removeFirstOccAux, stripLeadingPlus, startsWithList]

/-- The event built for a message entry carries the entry's id as its
external id. -/
theorem buildIncomingEvent_externalID (st : BackendState) (m : MoMessage)
    (urn : String) : (buildIncomingEvent st m urn).externalID = m.id := by
  unfold buildIncomingEvent
  dsimp only
  split <;> rfl

/-- The dedup mark of the built event is exactly whether the entry's id was
already recorded as seen. -/
theorem buildIncomingEvent_alreadySeen (st : BackendState) (m : MoMessage)
    (urn : String) :
    (buildIncomingEvent st m urn).alreadySeen = st.seenIDs.contains m.id := by
  unfold buildIncomingEvent
  dsimp only
  split <;> rfl

/-- A self-authored entry makes the loop body skip. -/
theorem processOneMsg_skip (st : BackendState) (m : MoMessage)
    (h : m.fromMe = true) : processOneMsg st m = .skip := by
  simp [processOneMsg, h]

/-- Loop body on a fresh entry whose persistence fails: the raw error. -/
theorem processOneMsg_persistFail (st : BackendState) (m : MoMessage)
    (u : String) (hm : m.fromMe = false)
    (hu : NewWhatsAppURN (removeFirstOcc m.author "@c.us") = some u)
    (hs : m.id ∉ st.seenIDs)
    (hf : m.id ∈ st.persistFailIDs) :
    processOneMsg st m = .fail (.rawError "persistence failure") := by
  have hA : (buildIncomingEvent st m u).alreadySeen = false := by
    simp [buildIncomingEvent_alreadySeen, hs]
  simp [processOneMsg, hm, hu, WriteMsg, hA, buildIncomingEvent_externalID, hf]

/-- Loop body on a fresh entry whose persistence succeeds: the event is
persisted and its external id recorded as seen. -/
theorem processOneMsg_ok_new (st : BackendState) (m : MoMessage) (u : String)
    (hm : m.fromMe = false)
    (hu : NewWhatsAppURN (removeFirstOcc m.author "@c.us") = some u)
    (hs : m.id ∉ st.seenIDs)
    (hf : m.id ∉ st.persistFailIDs) :
    processOneMsg st m =
      .ok { st with
              writtenMsgs := st.writtenMsgs ++ [buildIncomingEvent st m u]
              seenIDs := st.seenIDs ++ [m.id] }
        (buildIncomingEvent st m u) := by
  have hA : (buildIncomingEvent st m u).alreadySeen = false := by
    simp [buildIncomingEvent_alreadySeen, hs]
  simp [processOneMsg, hm, hu, WriteMsg, hA, WriteExternalIDSeen,
    buildIncomingEvent_externalID, hf]

/-- Loop body on an entry whose external id was already seen: the backend
skips the write and the state gains only the repeated seen-id record. -/
theorem processOneMsg_ok_seen (st : BackendState) (m : MoMessage) (u : String)
    (hm : m.fromMe = false)
    (hu : NewWhatsAppURN (removeFirstOcc m.author "@c.us") = some u)
    (hs : m.id ∈ st.seenIDs) :
    processOneMsg st m =
      .ok { st with seenIDs := st.seenIDs ++ [m.id] }
        (buildIncomingEvent st m u) := by
  have hA : (buildIncomingEvent st m u).alreadySeen = true := by
    simp [buildIncomingEvent_alreadySeen, hs]
  simp [processOneMsg, hm, hu, WriteMsg, hA, WriteExternalIDSeen,
    buildIncomingEvent_externalID]

/-- Skipped head entry: the messages loop continues unchanged. -/
theorem processMsgs_cons_skip (st : BackendState) (m : MoMessage)
    (rest : List MoMessage) (events : List Event) (data : List DataItem)
    (h : processOneMsg st m = .skip) :
    processMsgs st (m :: rest) events data = processMsgs st rest events data := by
  simp [processMsgs, h]

/-- Failing head entry: the messages loop aborts with the current state. -/
theorem processMsgs_cons_fail (st : BackendState) (m : MoMessage)
    (rest : List MoMessage) (events : List Event) (data : List DataItem)
    (r : HandlerResult) (h : processOneMsg st m = .fail r) :
    processMsgs st (m :: rest) events data = .fail st r := by
  simp [processMsgs, h]

/-- Processed head entry: the messages loop continues with the new state and
the appended event and datum. -/
theorem processMsgs_cons_ok (st st2 : BackendState) (m : MoMessage)
    (rest : List MoMessage) (events : List Event) (data : List DataItem)
    (ev : IncomingMsg) (h : processOneMsg st m = .ok st2 ev) :
    processMsgs st (m :: rest) events data =
      processMsgs st2 rest (events ++ [.msg ev])
        (data ++ [.msgReceiveData ev]) := by
  simp [processMsgs, h]

/-- If a prefix of the batch completes, the loop on the whole batch continues
from the prefix's state. -/
theorem processMsgs_append_ok (st st1 : BackendState)
    (l1 l2 : List MoMessage) (events : List Event) (data : List DataItem)
    (events1 : List Event) (data1 : List DataItem)
    (h : processMsgs st l1 events data = .ok st1 events1 data1) :
    processMsgs st (l1 ++ l2) events data = processMsgs st1 l2 events1 data1 := by
  induction l1 generalizing st events data with
  | nil =>
    simp only [processMsgs] at h
    cases h
    simp
  | cons m rest ih =>
    simp only [processMsgs] at h ⊢
    cases hstep : processOneMsg st m with
    | skip => rw [hstep] at h; exact ih st events data h
    | fail r => rw [hstep] at h; exact absurd h (by simp)
    | ok st2 ev => rw [hstep] at h; exact ih st2 _ _ h

/-- If a prefix of the batch aborts, the loop on the whole batch aborts the
same way. -/
theorem processMsgs_append_fail (st st1 : BackendState)
    (l1 l2 : List MoMessage) (events : List Event) (data : List DataItem)
    (r : HandlerResult)
    (h : processMsgs st l1 events data = .fail st1 r) :
    processMsgs st (l1 ++ l2) events data = .fail st1 r := by
  induction l1 generalizing st events data with
  | nil => simp [processMsgs] at h
  | cons m rest ih =>
    simp only [processMsgs] at h ⊢
    cases hstep : processOneMsg st m with
    | skip => rw [hstep] at h; exact ih st events data h
    | fail r2 => rw [hstep] at h; exact h
    | ok st2 ev => rw [hstep] at h; exact ih st2 _ _ h

/-! ## Claims about the outbound formatter -/

/-- A concrete text-only outbound message used in the outbound examples. -/
def msgHello : OutMsg :=
  { id := "10", text := "hello", urnPath := "+15551234567",
    quickReplies := [], attachments := [] }

/-- A concrete outbound message whose addresses carry a non-leading "+". -/
def msgMidPlus : OutMsg :=
  { id := "1", text := "t", urnPath := "1+2", quickReplies := [],
    attachments := [] }

/-- A concrete attachment-only outbound message (empty text). -/
def msgNoText : OutMsg :=
  { id := "7", text := "", urnPath := "+12025550001",
    quickReplies := ["yes"], attachments := ["image/jpeg:u"] }

/-- C1: the claim fails on the code.  At an outbound message with non-empty
text and no attachments whose single HTTP POST fails with a transport error,
SendMsg does issue exactly one POST and returns no error, but the status is
promoted to "wired" rather than remaining "errored": sendMsgPart returns a
nil error unconditionally, so the transport failure is visible only in the
channel log. -/
theorem C1_transport_failure_still_wired :
    (SendMsg msgHello "+15551234567" (some "connection refused")).postsIssued = 1 ∧
    (SendMsg msgHello "+15551234567" (some "connection refused")).status = MsgStatusValue.wired ∧
    (SendMsg msgHello "+15551234567" (some "connection refused")).returnedError = none ∧
    (SendMsg msgHello "+15551234567" (some "connection refused")).logs =
      [{ title := "Message Sent", sendError := some "connection refused" }] := by
  refine ⟨rfl, rfl, rfl, rfl⟩

/-- C9 counterexample: the claim's general statement — that the derived
no-plus form of an address is the address with a leading "+" stripped — fails
for the sender address "1+2": the code removes the first "+" wherever it
occurs, yielding "12", while the address has no leading "+" to strip. -/
theorem C9_counterexample_nonleading_plus :
    (SendMsg msgMidPlus "1+2" none).payload.FromNoPlus ≠
      stripLeadingPlus "1+2" := by
  decide

/-- C9 (amended): the derived ToNoPlus, FromNoPlus and Channel fields equal
the respective address with its FIRST occurrence of "+" removed, wherever it
occurs; for an address that begins with "+" this coincides with stripping the
leading "+", and in particular "+15551234567" yields "15551234567". -/
theorem C9_noplus_is_first_occurrence_removed (msg : OutMsg) (address : String)
    (t : Option String) :
    (SendMsg msg address t).payload.ToNoPlus = removeFirstOcc msg.urnPath "+" ∧
    (SendMsg msg address t).payload.FromNoPlus = removeFirstOcc address "+" ∧
    (SendMsg msg address t).payload.Channel = removeFirstOcc address "+" ∧
    (∀ s : String, s.data.head? = some '+' →
      removeFirstOcc s "+" = stripLeadingPlus s) ∧
    removeFirstOcc "+15551234567" "+" = "15551234567" := by
  obtain ⟨h1, h2, h3⟩ := SendMsg_payload_fields msg address t
  exact ⟨h1, h2, h3, fun s hs => removeFirstOcc_plus_of_head s hs, rfl⟩

/-- C9 witness: the amended statement at the concrete address of the claim. -/
theorem C9_noplus_witness :
    (SendMsg msgHello "+15551234567" none).payload.ToNoPlus =
      removeFirstOcc "+15551234567" "+" ∧
    removeFirstOcc "+15551234567" "+" = stripLeadingPlus "+15551234567" := by
  refine ⟨(C9_noplus_is_first_occurrence_removed msgHello "+15551234567" none).1, ?_⟩
  exact (C9_noplus_is_first_occurrence_removed msgHello "+15551234567"
    none).2.2.2.1 "+15551234567" rfl

/-- C10: for an outbound message whose text is empty — including
attachment-only messages — SendMsg issues no HTTP POST, the returned status
remains "errored", no log is attached, and the returned error is nil; the
attachments and quick replies are placed in the payload but never
transmitted. -/
theorem C10_empty_text_no_post (msg : OutMsg) (address : String)
    (t : Option String) (h : msg.text = "") :
    (SendMsg msg address t).postsIssued = 0 ∧
    (SendMsg msg address t).status = MsgStatusValue.errored ∧
    (SendMsg msg address t).returnedError = none ∧
    (SendMsg msg address t).logs = [] ∧
    (msg.attachments.length > 0 →
      (SendMsg msg address t).payload.Attachments = some msg.attachments) ∧
    (msg.quickReplies.length > 0 →
      (SendMsg msg address t).payload.Metadata =
        some [("quick_replies", msg.quickReplies)]) := by
  unfold SendMsg
  dsimp only
  simp only [h]
  split <;> split <;> simp_all

/-- C10 witness: an attachment-only message with a quick reply, concretely. -/
theorem C10_empty_text_witness :
    (SendMsg msgNoText "+12025550002" none).postsIssued = 0 ∧
    (SendMsg msgNoText "+12025550002" none).status = MsgStatusValue.errored ∧
    (SendMsg msgNoText "+12025550002" none).payload.Attachments =
      some ["image/jpeg:u"] := by
  obtain ⟨h1, h2, _, _, h5, _⟩ :=
    C10_empty_text_no_post msgNoText "+12025550002" none rfl
  exact ⟨h1, h2, h5 (by decide)⟩

/-! ## Acknowledgement-loop lemmas -/

/-- An acknowledgement whose id matches no known outbound message adds the
informational note and the loop continues. -/
theorem processAcks_cons_notFound (st : BackendState) (a : MoAck)
    (rest : List MoAck) (events : List Event) (data : List DataItem)
    (h : a.id ∉ st.knownOutIDs) :
    processAcks st (a :: rest) events data =
      processAcks st rest events
        (data ++ [.infoData "message not found, ignored"]) := by
  simp [processAcks, WriteMsgStatus, h]

/-- An acknowledgement whose status write fails with an error other than
not-found aborts the loop. -/
theorem processAcks_cons_otherError (st : BackendState) (a : MoAck)
    (rest : List MoAck) (events : List Event) (data : List DataItem)
    (h1 : a.id ∈ st.knownOutIDs) (h2 : a.id ∈ st.statusFailIDs) :
    processAcks st (a :: rest) events data =
      .fail st (.rawError "status write failure") := by
  simp [processAcks, WriteMsgStatus, h1, h2]

/-! ## Concrete fixtures for the witnesses -/

/-- A concrete backend state: outbound messages "X" and "Z" are known,
persistence fails for external id "B", and the status write for "Z" fails
with an error other than not-found. -/
def stEx : BackendState :=
  { seenIDs := [], writtenMsgs := [], knownOutIDs := ["X", "Z"],
    statusWrites := [], persistFailIDs := ["B"], statusFailIDs := ["Z"] }

/-- A concrete well-formed inbound message entry. -/
def msgA : MoMessage :=
  { fromMe := false, time := 1700000000, author := "111@c.us",
    senderName := "Ann", body := "hi", caption := "", type := "chat",
    id := "A" }

/-- A concrete entry whose persistence fails (its id is in the oracle). -/
def msgB : MoMessage :=
  { msgA with id := "B", author := "222@c.us", body := "boom" }

/-- A concrete entry after the failing one. -/
def msgC : MoMessage := { msgA with id := "C" }

/-- A concrete self-authored entry. -/
def msgSelf : MoMessage := { msgA with fromMe := true, id := "S" }

/-- A concrete image entry with caption "C" and body "B". -/
def msgImg : MoMessage :=
  { msgA with type := "image", caption := "C", body := "B", id := "I" }

/-- The event persisted for msgA. -/
def evA : IncomingMsg :=
  { urn := "whatsapp:111", text := "hi", externalID := "A",
    receivedOn := 1700000000, contactName := "Ann", attachments := [],
    alreadySeen := false }

/-- The backend state after msgA has been persisted and recorded as seen. -/
def stAfterA : BackendState :=
  { seenIDs := ["A"], writtenMsgs := [evA], knownOutIDs := ["X", "Z"],
    statusWrites := [], persistFailIDs := ["B"], statusFailIDs := ["Z"] }

/-- An acknowledgement for the known outbound message "X". -/
def ackX : MoAck := { id := "X", status := "sent" }

/-- An acknowledgement matching no known outbound message. -/
def ackY : MoAck := { id := "Y", status := "delivered" }

/-- An acknowledgement whose status write fails with a non-not-found error. -/
def ackZ : MoAck := { id := "Z", status := "sent" }

/-- A concrete registration environment with no backend failures. -/
def regEnv0 : RegEnv :=
  { getContactFails := false, addLanguageFails := false, contactUUID := "u1" }

/-! ## Claims about registration -/

/-- C2: the claim fails on the code.  A registration request with a non-empty
urn and a malformed language tag (here the empty tag, which parses to none)
does not produce a request-error response: registerUser calls
language.MustParse, which panics, so processing fails by panic after the
contact lookup instead of reporting a 4xx/5xx request error. -/
theorem C2_malformed_language_tag_panics :
    parseLanguageTag "" = none ∧
    registerUser regEnv0 { urn := "12345", language := "" } =
      ({ getContactCalls := 1, addLanguageCalls := 0 },
        .panicked "language: tag is not well-formed") := by
  exact ⟨rfl, rfl⟩

/-- C3: a registration request with an empty urn makes no backend contact
call — neither GetContact nor AddLanguageToContact is invoked — and the
response is the "ignored" outcome rather than an error. -/
theorem C3_empty_urn_ignored (env : RegEnv) (p : UserPayload)
    (h : p.urn = "") :
    registerUser env p =
      ({ getContactCalls := 0, addLanguageCalls := 0 },
        .ignoredReq "Ignoring request, no identifier") := by
  simp [registerUser, h]

/-- C3 witness: the empty-urn request, concretely. -/
theorem C3_empty_urn_witness :
    registerUser regEnv0 { urn := "", language := "en" } =
      ({ getContactCalls := 0, addLanguageCalls := 0 },
        .ignoredReq "Ignoring request, no identifier") :=
  C3_empty_urn_ignored regEnv0 { urn := "", language := "en" } rfl

/-! ## Claims about the inbound normalizer -/

/-- C4: a self-authored entry (fromMe = true) anywhere in the batch produces
no event and contributes nothing to the response, and the remaining entries
are processed exactly as if the entry were absent — both for the messages
loop and for the whole receiveMessage invocation. -/
theorem C4_fromMe_produces_no_event (st : BackendState)
    (pre post : List MoMessage) (m : MoMessage) (events : List Event)
    (data : List DataItem) (iid : String) (acks : List MoAck)
    (h : m.fromMe = true) :
    processMsgs st (pre ++ m :: post) events data =
      processMsgs st (pre ++ post) events data ∧
    receiveMessage st
        { instanceID := iid, messages := pre ++ m :: post, ack := acks } =
      receiveMessage st
        { instanceID := iid, messages := pre ++ post, ack := acks } := by
  have key : ∀ (st0 : BackendState) (evs : List Event) (d : List DataItem),
      processMsgs st0 (pre ++ m :: post) evs d =
        processMsgs st0 (pre ++ post) evs d := by
    intro st0 evs d
    cases hp : processMsgs st0 pre evs d with
    | fail st1 r =>
      rw [processMsgs_append_fail st0 st1 pre (m :: post) evs d r hp,
        processMsgs_append_fail st0 st1 pre post evs d r hp]
    | ok st1 e1 d1 =>
      rw [processMsgs_append_ok st0 st1 pre (m :: post) evs d e1 d1 hp,
        processMsgs_append_ok st0 st1 pre post evs d e1 d1 hp,
        processMsgs_cons_skip st1 m post e1 d1 (processOneMsg_skip st1 m h)]
  refine ⟨key st events data, ?_⟩
  unfold receiveMessage
  dsimp only
  by_cases hiid : iid = ""
  · rw [if_pos hiid, if_pos hiid]
  · rw [if_neg hiid, if_neg hiid, key st [] []]

/-- C4 witness: a batch consisting of one self-authored entry, concretely. -/
theorem C4_fromMe_witness :
    processMsgs stEx [msgSelf] [] [] = processMsgs stEx [] [] [] ∧
    receiveMessage stEx
        { instanceID := "i1", messages := [msgSelf], ack := [ackX] } =
      receiveMessage stEx
        { instanceID := "i1", messages := [], ack := [ackX] } :=
  C4_fromMe_produces_no_event stEx [] [] msgSelf [] [] "i1" [ackX] rfl

/-- C5: the event built for an entry of type "image" with caption C and body
B has text C and exactly the one attachment B; for any other type the text is
the body and no attachment is added. -/
theorem C5_image_caption_and_attachment (st : BackendState) (m : MoMessage)
    (urn : String) :
    (m.type = "image" →
      (buildIncomingEvent st m urn).text = m.caption ∧
      (buildIncomingEvent st m urn).attachments = [m.body]) ∧
    (¬ m.type = "image" →
      (buildIncomingEvent st m urn).text = m.body ∧
      (buildIncomingEvent st m urn).attachments = []) := by
  constructor <;> intro h <;>
    simp [buildIncomingEvent, h, NewIncomingMsg, IncomingMsg.withExternalID,
      IncomingMsg.withReceivedOn, IncomingMsg.withContactName,
      IncomingMsg.withAttachment, CheckExternalIDSeen]

/-- C5 witness: a concrete image entry and a concrete non-image entry. -/
theorem C5_image_witness :
    ((buildIncomingEvent stEx msgImg "whatsapp:111").text = "C" ∧
      (buildIncomingEvent stEx msgImg "whatsapp:111").attachments = ["B"]) ∧
    ((buildIncomingEvent stEx msgA "whatsapp:111").text = "hi" ∧
      (buildIncomingEvent stEx msgA "whatsapp:111").attachments = []) :=
  ⟨(C5_image_caption_and_attachment stEx msgImg "whatsapp:111").1 rfl,
    (C5_image_caption_and_attachment stEx msgA "whatsapp:111").2 (by decide)⟩

/-- C6: an acknowledgement whose id matches no known outbound message adds an
informational "not found" item to the response and the loop continues with
the remaining acknowledgements, raising no error; a status-write failure
other than not-found aborts the batch with an error. -/
theorem C6_unmatched_ack_nonfatal (st : BackendState) (a : MoAck)
    (rest : List MoAck) (events : List Event) (data : List DataItem) :
    (a.id ∉ st.knownOutIDs →
      processAcks st (a :: rest) events data =
        processAcks st rest events
          (data ++ [.infoData "message not found, ignored"])) ∧
    (a.id ∈ st.knownOutIDs → a.id ∈ st.statusFailIDs →
      processAcks st (a :: rest) events data =
        .fail st (.rawError "status write failure")) :=
  ⟨fun h => processAcks_cons_notFound st a rest events data h,
    fun h1 h2 => processAcks_cons_otherError st a rest events data h1 h2⟩

/-- C6 witness: an unmatched acknowledgement followed by a matched one is
non-fatal and keeps processing; a failing matched one aborts. -/
theorem C6_unmatched_ack_witness :
    processAcks stEx [ackY, ackX] [] [] =
      processAcks stEx [ackX] []
        [.infoData "message not found, ignored"] ∧
    processAcks stEx [ackZ, ackX] [] [] =
      .fail stEx (.rawError "status write failure") :=
  ⟨(C6_unmatched_ack_nonfatal stEx ackY [ackX] [] []).1 (by decide),
    (C6_unmatched_ack_nonfatal stEx ackZ [ackX] [] []).2 (by decide) (by decide)⟩

/-- C7: if persisting the event of some entry fails, receiveMessage aborts
the whole batch immediately with that error: the acknowledgements and the
entries after the failing one are not processed, no success response is
written, and the state in which the request ends is exactly the state after
the earlier entries — their already persisted events are not rolled back. -/
theorem C7_persist_failure_aborts (st st1 : BackendState)
    (pre post : List MoMessage) (m : MoMessage) (acks : List MoAck)
    (iid u : String) (events : List Event) (data : List DataItem)
    (hiid : iid ≠ "")
    (hpre : processMsgs st pre [] [] = .ok st1 events data)
    (hm : m.fromMe = false)
    (hu : NewWhatsAppURN (removeFirstOcc m.author "@c.us") = some u)
    (hs : m.id ∉ st1.seenIDs)
    (hf : m.id ∈ st1.persistFailIDs) :
    receiveMessage st
        { instanceID := iid, messages := pre ++ m :: post, ack := acks } =
      (st1, .rawError "persistence failure") := by
  unfold receiveMessage
  dsimp only
  rw [if_neg hiid,
    processMsgs_append_ok st st1 pre (m :: post) [] [] events data hpre,
    processMsgs_cons_fail st1 m post events data _
      (processOneMsg_persistFail st1 m u hm hu hs hf)]

/-- C7 witness: a three-entry batch whose second entry fails to persist, with
a pending acknowledgement; the request ends in the state holding the first
entry's persisted event, with the raw persistence error. -/
theorem C7_persist_failure_witness :
    receiveMessage stEx
        { instanceID := "i1", messages := [msgA, msgB, msgC], ack := [ackX] } =
      (stAfterA, .rawError "persistence failure") :=
  C7_persist_failure_aborts stEx stAfterA [msgA] [msgC] msgB [ackX] "i1"
    "whatsapp:222" [.msg evA] [.msgReceiveData evA] (by decide) (by decide)
    rfl rfl (by decide) (by decide)

/-- C8: idempotent receipt.  The dedup check runs before persisting and the
external id is recorded as seen only after a successful persist.  A first
submission of a fresh message persists exactly one new event (the count of
persisted messages with that external id grows by one) and records the id as
seen; submitting the same message again succeeds but leaves the persisted
messages unchanged — only the seen-id record grows. -/
theorem C8_idempotent_receipt (st : BackendState) (m : MoMessage)
    (u iid : String) (hiid : iid ≠ "") (hm : m.fromMe = false)
    (hu : NewWhatsAppURN (removeFirstOcc m.author "@c.us") = some u)
    (hs : m.id ∉ st.seenIDs) (hf : m.id ∉ st.persistFailIDs) :
    receiveMessage st { instanceID := iid, messages := [m], ack := [] } =
      ({ st with
           writtenMsgs := st.writtenMsgs ++ [buildIncomingEvent st m u]
           seenIDs := st.seenIDs ++ [m.id] },
        .success [.msg (buildIncomingEvent st m u)]
          [.msgReceiveData (buildIncomingEvent st m u)]) ∧
    (st.writtenMsgs ++ [buildIncomingEvent st m u]).countP
        (fun w => w.externalID == m.id) =
      st.writtenMsgs.countP (fun w => w.externalID == m.id) + 1 ∧
    receiveMessage
        { st with
            writtenMsgs := st.writtenMsgs ++ [buildIncomingEvent st m u]
            seenIDs := st.seenIDs ++ [m.id] }
        { instanceID := iid, messages := [m], ack := [] } =
      ({ st with
           writtenMsgs := st.writtenMsgs ++ [buildIncomingEvent st m u]
           seenIDs := (st.seenIDs ++ [m.id]) ++ [m.id] },
        .success
          [.msg (buildIncomingEvent
            { st with
                writtenMsgs := st.writtenMsgs ++ [buildIncomingEvent st m u]
                seenIDs := st.seenIDs ++ [m.id] } m u)]
          [.msgReceiveData (buildIncomingEvent
            { st with
                writtenMsgs := st.writtenMsgs ++ [buildIncomingEvent st m u]
                seenIDs := st.seenIDs ++ [m.id] } m u)]) := by
  refine ⟨?_, ?_, ?_⟩
  · unfold receiveMessage
    dsimp only
    rw [if_neg hiid,
      processMsgs_cons_ok st _ m [] [] [] _
        (processOneMsg_ok_new st m u hm hu hs hf)]
    rfl
  · simp [List.countP_append, List.countP_cons, buildIncomingEvent_externalID]
  · unfold receiveMessage
    dsimp only
    rw [if_neg hiid,
      processMsgs_cons_ok _ _ m [] [] [] _
        (processOneMsg_ok_seen
          { st with
              writtenMsgs := st.writtenMsgs ++ [buildIncomingEvent st m u]
              seenIDs := st.seenIDs ++ [m.id] } m u hm hu (by simp))]
    rfl

/-- The event produced for a second submission of msgA: identical except that
the dedup check now marks it as already seen. -/
def evASeen : IncomingMsg := { evA with alreadySeen := true }

/-- C8 witness: submitting msgA twice, concretely — the first run persists
the event, the second run leaves the persisted messages unchanged. -/
theorem C8_idempotent_witness :
    receiveMessage stEx { instanceID := "i1", messages := [msgA], ack := [] } =
      (stAfterA, .success [.msg evA] [.msgReceiveData evA]) ∧
    receiveMessage stAfterA
        { instanceID := "i1", messages := [msgA], ack := [] } =
      ({ seenIDs := ["A", "A"], writtenMsgs := [evA],
         knownOutIDs := ["X", "Z"], statusWrites := [],
         persistFailIDs := ["B"], statusFailIDs := ["Z"] },
        .success [.msg evASeen] [.msgReceiveData evASeen]) := by
  obtain ⟨h1, _, h3⟩ := C8_idempotent_receipt stEx msgA "whatsapp:111" "i1"
    (by decide) rfl rfl (by decide) (by decide)
  exact ⟨h1, h3⟩

end Websocket
